import Mathlib

/-
  Shallow embedding of src/fastnet_decoder/decode_fastnet.py.

  The module imports `calculate_checksum` and `convert_segment_b_to_char`
  from `.utils`, and the lookup tables from `.mappings`; those files are
  not part of the sources, so they are modelled from the spec as
  parameters (an `Env` record) respectively as a concrete table
  (`FORMAT_SIZE_MAP`) that the spec pins down exactly.

  Python byte strings are embedded as `List Nat` (each element a byte
  value), Python `int` as `Nat`/`Int`, and true division as exact
  division over `ℚ`.  A Python function that can raise is embedded with
  `Except`; `try/except` blocks map the error case back to the caught
  outcome.  Dictionaries keyed by strings are association lists with
  overwrite-on-store semantics, matching Python dict assignment.
-/

namespace Fastnet

/-- Uppercase hexadecimal digit, as produced by Python `"%02X"` formatting. -/
def hexDigitU (n : Nat) : Char :=
  if n < 10 then Char.ofNat (48 + n) else Char.ofNat (55 + n)

/-- Lowercase hexadecimal digit, as produced by Python `bytes.hex()`. -/
def hexDigitL (n : Nat) : Char :=
  if n < 10 then Char.ofNat (48 + n) else Char.ofNat (87 + n)

/-- Two uppercase hex digits for one byte, Python `f"{b:02X}"`. -/
def byteHexU (b : Nat) : String :=
  String.mk [hexDigitU ((b / 16) % 16), hexDigitU (b % 16)]

/-- Two lowercase hex digits for one byte. -/
def byteHexL (b : Nat) : String :=
  String.mk [hexDigitL ((b / 16) % 16), hexDigitL (b % 16)]

/-- Python `data_bytes.hex()`: lowercase hex of all bytes, concatenated. -/
def bytesHexL (bs : List Nat) : String :=
  String.join (bs.map byteHexL)

/-- Modelled from the spec: `FORMAT_SIZE_MAP` lives in the missing
`mappings.py`; §4.3 of the spec fixes the expected payload length of every
supported format nibble (2 bytes for 0x01/0x02/0x03/0x08, 4 bytes for
0x04/0x05/0x06/0x07/0x0A) and §6 fixes the lookup default 0 for unmapped
nibbles (the default is applied at the call site via `Option.getD`). -/
def FORMAT_SIZE_MAP (nibble : Nat) : Option Nat :=
  if nibble = 1 then some 2
  else if nibble = 2 then some 2
  else if nibble = 3 then some 2
  else if nibble = 4 then some 4
  else if nibble = 5 then some 4
  else if nibble = 6 then some 4
  else if nibble = 7 then some 4
  else if nibble = 8 then some 2
  else if nibble = 10 then some 4
  else none

/-- Modelled from the spec: the external utilities of §6 (`utils.py` and the
name lookup tables of `mappings.py` are not under the sources).  The spec
fixes only their contracts: the checksum is a deterministic pure function of
the bytes, the segment-byte map is total over bytes, and each name lookup is
a partial map whose misses the engine itself replaces by an
`Unknown (0xHH)` placeholder. -/
structure Env where
  calculate_checksum : List Nat → Nat
  convert_segment_b_to_char : Nat → Char
  ADDRESS_LOOKUP : Nat → Option String
  COMMAND_LOOKUP : Nat → Option String
  CHANNEL_LOOKUP : Nat → Option String

/-- Python `TABLE.get(code, f"Unknown (0x{code:02X})")`. -/
def lookup_name (table : Nat → Option String) (code : Nat) : String :=
  (table code).getD ("Unknown (0x" ++ byteHexU code ++ ")")

/-- Variants of the `raw` field of a decoded value, one per format branch of
`decode_format_and_data` (Python stores heterogeneous dicts/ints/lists). -/
inductive RawValue
  | int (value : Int)
  | segUnsigned (segment_code unsigned_value : Nat)
  | segSigned (segment_code : Nat) (signed_value : Int)
  | timer (useless hours minutes seconds : Nat)
  | hexList (bytes : List String)
  | nat (value : Nat)
  | pair (first_raw second_raw : Int)
deriving DecidableEq, Repr

/-- Variants of the `interpreted` field (scaled number, duration, display
text, or a pair of scaled numbers). -/
inductive Interpreted
  | scaled (value : ℚ)
  | duration (hours minutes seconds : Nat)
  | text (value : String)
  | pairScaled (first second : ℚ)
deriving DecidableEq, Repr

/-- The result dictionary built at the end of `decode_format_and_data`. -/
structure DecodedResult where
  channel_id : String
  format_byte : String
  data_bytes : String
  divisor : Nat
  digits : Nat
  format_bits : Nat
  raw : RawValue
  interpreted : Interpreted
deriving DecidableEq, Repr

/-- Python `divisor_map = {0b00: 1, 0b01: 10, 0b10: 100, 0b11: 1000}`. -/
def divisor_map (bits : Nat) : Option Nat :=
  if bits = 0 then some 1
  else if bits = 1 then some 10
  else if bits = 2 then some 100
  else if bits = 3 then some 1000
  else none

/-- Python `digits_map = {0b00: 1, 0b01: 2, 0b10: 3, 0b11: 4}`. -/
def digits_map (bits : Nat) : Option Nat :=
  if bits = 0 then some 1
  else if bits = 1 then some 2
  else if bits = 2 then some 3
  else if bits = 3 then some 4
  else none

/-- Python `int.from_bytes([hi, lo], byteorder="big", signed=True)`. -/
def toSigned16 (hi lo : Nat) : Int :=
  let u := hi * 256 + lo
  if u < 32768 then (u : Int) else (u : Int) - 65536

/-- The format dispatch of `decode_format_and_data` (lines 172-261): given
the already extracted divisor and format bits and the payload, produce the
`raw`/`interpreted` pair of the matching branch, `none` for a skipped record
(length mismatch or unsupported format), or an error for a Python exception
escaping the branch.  The only such exception is in the 0x03 branch: the
source line `signed_value = signed_value if not is_negative else
-unsigned_value` references `signed_value` before assignment and raises
`UnboundLocalError` whenever `is_negative` is false. -/
def decode_branches (env : Env) (divisor : Nat) (format_bits : Nat)
    (d : List Nat) : Except Unit (Option (RawValue × Interpreted)) :=
  if format_bits = 1 then
    if d.length ≠ 2 then .ok none
    else
      let raw_value := toSigned16 (d.getD 0 0) (d.getD 1 0)
      .ok (some (.int raw_value, .scaled ((raw_value : ℚ) / (divisor : ℚ))))
  else if format_bits = 2 then
    if d.length ≠ 2 then .ok none
    else
      let segment_code := ((d.getD 0 0) >>> 2) &&& 63
      let unsigned_value := ((d.getD 0 0) &&& 3) <<< 8 ||| d.getD 1 0
      .ok (some (.segUnsigned segment_code unsigned_value,
        .scaled ((unsigned_value : ℚ) / (divisor : ℚ))))
  else if format_bits = 3 then
    if d.length ≠ 2 then .ok none
    else
      let segment_code := ((d.getD 0 0) >>> 1) &&& 127
      let unsigned_value := ((d.getD 0 0) &&& 1) <<< 8 ||| d.getD 1 0
      if segment_code &&& 64 ≠ 0 then
        .ok (some (.segSigned segment_code (-(unsigned_value : Int)),
          .scaled ((unsigned_value : ℚ) / (divisor : ℚ))))
      else
        .error ()
  else if format_bits = 4 then
    if d.length ≠ 4 then .ok none
    else
      let segment_code := d.getD 0 0
      let unsigned_value := (d.getD 1 0) * 65536 + (d.getD 2 0) * 256 + d.getD 3 0
      .ok (some (.segUnsigned segment_code unsigned_value,
        .scaled ((unsigned_value : ℚ) / (divisor : ℚ))))
  else if format_bits = 5 then
    if d.length ≠ 4 then .ok none
    else
      .ok (some (.timer (d.getD 0 0) (d.getD 1 0) (d.getD 2 0) (d.getD 3 0),
        .duration (d.getD 1 0) (d.getD 2 0) (d.getD 3 0)))
  else if format_bits = 6 then
    if d.length ≠ 4 then .ok none
    else
      .ok (some (.hexList (d.map byteHexU),
        .text (String.mk (d.map env.convert_segment_b_to_char))))
  else if format_bits = 7 then
    if d.length ≠ 4 then .ok none
    else
      let msb := ((d.getD 2 0) >>> 1) &&& 127
      let lsb := d.getD 3 0
      let unsigned_value := msb <<< 8 ||| lsb
      .ok (some (.nat unsigned_value,
        .scaled ((unsigned_value : ℚ) / (divisor : ℚ))))
  else if format_bits = 8 then
    if d.length ≠ 2 then .ok none
    else
      let segment_code := ((d.getD 0 0) >>> 1) &&& 127
      let unsigned_value := ((d.getD 0 0) &&& 1) <<< 8 ||| d.getD 1 0
      .ok (some (.segUnsigned segment_code unsigned_value,
        .scaled ((unsigned_value : ℚ) / (divisor : ℚ))))
  else if format_bits = 10 then
    if d.length ≠ 4 then .ok none
    else
      let first_value := toSigned16 (d.getD 0 0) (d.getD 1 0)
      let second_value := toSigned16 (d.getD 2 0) (d.getD 3 0)
      .ok (some (.pair first_value second_value,
        .pairScaled ((first_value : ℚ) / (divisor : ℚ))
          ((second_value : ℚ) / (divisor : ℚ))))
  else .ok none

/-- Body of `decode_format_and_data` inside its `try` block: extract the
divisor/digits/format fields, reject an empty payload, dispatch, and
assemble the result dictionary.  `.error` marks a Python exception that the
outer `except` of the source then converts to `None`. -/
def decode_inner (env : Env) (channel_id format_byte : Nat)
    (data_bytes : List Nat) : Except Unit (Option DecodedResult) :=
  let divisor_bits := (format_byte >>> 6) &&& 3
  let digits_bits := (format_byte >>> 4) &&& 3
  let format_bits := format_byte &&& 15
  let divisor := (divisor_map divisor_bits).getD 1
  let digits := (digits_map digits_bits).getD 1
  if data_bytes.length = 0 then .ok none
  else
    match decode_branches env divisor format_bits data_bytes with
    | .error e => .error e
    | .ok none => .ok none
    | .ok (some (raw, interp)) =>
        .ok (some {
          channel_id := "0x" ++ byteHexU channel_id,
          format_byte := "0x" ++ byteHexU format_byte,
          data_bytes := bytesHexL data_bytes,
          divisor := divisor,
          digits := digits,
          format_bits := format_bits,
          raw := raw,
          interpreted := interp })

/-- Python `decode_format_and_data` (lines 141-279): the whole body sits in
a `try` whose `except Exception` returns `None`. -/
def decode_format_and_data (env : Env) (channel_id format_byte : Nat)
    (data_bytes : List Nat) : Option DecodedResult :=
  match decode_inner env channel_id format_byte data_bytes with
  | .ok v => v
  | .error _ => none

/-- Python dict assignment `values[channel_name] = decoded_value`: overwrite
in place when the key is present, append otherwise. -/
def dictStore (m : List (String × Option DecodedResult)) (k : String)
    (v : Option DecodedResult) : List (String × Option DecodedResult) :=
  if m.any (fun p => decide (p.1 = k)) then
    m.map (fun p => if p.1 = k then (k, v) else p)
  else m ++ [(k, v)]

/-- One iteration of the body loop of `decode_frame` (lines 47-70), for a
state `(index, values)` with `index < body.length`.  The per-iteration
`try/except` keeps the state reached at the point of the exception:
`body[index + 1]` out of range leaves the cursor unchanged, while the
incomplete-data `ValueError` is raised after the cursor already advanced
past the channel id and format byte. -/
def loopStep (env : Env) (body : List Nat)
    (s : Nat × List (String × Option DecodedResult)) :
    Nat × List (String × Option DecodedResult) :=
  let channel_id := body.getD s.1 0
  match body.get? (s.1 + 1) with
  | none => s
  | some format_byte =>
      let index := s.1 + 2
      let data_length := (FORMAT_SIZE_MAP (format_byte &&& 15)).getD 0
      if body.length < index + data_length then (index, s.2)
      else
        let data_bytes := (body.drop index).take data_length
        let decoded_value := decode_format_and_data env channel_id format_byte data_bytes
        let channel_name := lookup_name env.CHANNEL_LOOKUP channel_id
        (index + data_length, dictStore s.2 channel_name decoded_value)

/-- Fuel-indexed run of the `while index < len(body)` loop.  `none` means
the fuel ran out; `body.length + 1` units of fuel are enough for every
terminating run (each iteration either advances the cursor by at least two
or repeats the same state forever), so with that fuel `none` marks a run
that never terminates. -/
def runLoop (env : Env) (body : List Nat) :
    Nat → Nat × List (String × Option DecodedResult) →
    Option (List (String × Option DecodedResult))
  | 0, _ => none
  | fuel + 1, s =>
      if s.1 < body.length then runLoop env body fuel (loopStep env body s)
      else some s.2

/-- Result of `decode_frame`: an error dictionary, a decoded dictionary, or
divergence of the body loop (the Python call never returns). -/
inductive FrameResult
  | error (msg : String)
  | diverges
  | ok (to_address from_address command : String)
      (values : List (String × Option DecodedResult))
deriving DecidableEq, Repr

/-- Python `decode_frame` (lines 7-76).  A frame shorter than 5 bytes hits
an `IndexError` while slicing the header, caught by the outer `except` and
returned as an error dictionary.  The `body_size` field (`frame[2]`) is
parsed but never used. -/
def decode_frame (env : Env) (frame : List Nat) : FrameResult :=
  if frame.length < 5 then .error "index out of range"
  else
    let to_address := frame.getD 0 0
    let from_address := frame.getD 1 0
    let command := frame.getD 3 0
    let header_checksum := frame.getD 4 0
    let body := (frame.drop 5).dropLast
    let body_checksum := frame.getD (frame.length - 1) 0
    if env.calculate_checksum (frame.take 4) ≠ header_checksum then
      .error "Header checksum mismatch"
    else if env.calculate_checksum body ≠ body_checksum then
      .error "Body checksum mismatch"
    else
      match runLoop env body (body.length + 1) (0, []) with
      | some values =>
          .ok (lookup_name env.ADDRESS_LOOKUP to_address)
            (lookup_name env.ADDRESS_LOOKUP from_address)
            (lookup_name env.COMMAND_LOOKUP command) values
      | none => .diverges

/-- Projection used to state facts about the `values` mapping of a
successfully decoded frame. -/
def valuesOf : FrameResult → Option (List (String × Option DecodedResult))
  | .ok _ _ _ vs => some vs
  | _ => none

/-- Recognizer for the error variant of `FrameResult`. -/
def isError : FrameResult → Bool
  | .error _ => true
  | _ => false

/-- Python bytes considered whitespace by `str.strip()` on ASCII text. -/
def pyIsSpace (b : Nat) : Bool :=
  b = 32 || b = 9 || b = 10 || b = 13 || b = 11 || b = 12

/-- Python `str.strip()` on the decoded ASCII bytes. -/
def pyStrip (bs : List Nat) : List Nat :=
  ((bs.dropWhile pyIsSpace).reverse.dropWhile pyIsSpace).reverse

/-- Result of `decode_ascii_frame`: an error dictionary or the decoded
dictionary, whose single channel entry is flattened into its fields. -/
inductive AsciiResult
  | error (msg : String)
  | ok (to_address from_address command channel_name channel_id_hex
      format_byte_hex data_bytes_hex raw interpreted : String)
deriving DecidableEq, Repr

/-- Python `decode_ascii_frame` (lines 87-139).  The header bytes and the
two checksum bytes are parsed but no checksum is ever computed or compared;
a frame shorter than 8 bytes hits an `IndexError` on the header or on
`body[0]`/`body[1]` and surfaces as an error dictionary; a data byte
outside ASCII yields the dedicated decode-failure error. -/
def decode_ascii_frame (env : Env) (frame : List Nat) : AsciiResult :=
  if frame.length < 8 then .error "index out of range"
  else
    let to_address := frame.getD 0 0
    let from_address := frame.getD 1 0
    let command := frame.getD 3 0
    let body := (frame.drop 5).dropLast
    let channel_id := body.getD 0 0
    let format_byte := body.getD 1 0
    let data_bytes := body.drop 2
    let channel_name := lookup_name env.CHANNEL_LOOKUP channel_id
    if data_bytes.any (fun b => decide (128 ≤ b)) then .error "ASCII decode failed"
    else
      let ascii_text := String.mk ((pyStrip data_bytes).map Char.ofNat)
      .ok (lookup_name env.ADDRESS_LOOKUP to_address)
        (lookup_name env.ADDRESS_LOOKUP from_address)
        (lookup_name env.COMMAND_LOOKUP command)
        channel_name
        ("0x" ++ byteHexU channel_id)
        ("0x" ++ byteHexU format_byte)
        (bytesHexL data_bytes)
        ascii_text ascii_text

/-- Modelled from the spec: a concrete instantiation of the external
utilities of §6, used for concrete evaluations.  The checksum is the byte
sum reduced mod 256 (any deterministic pure byte function satisfies the
contract), the segment map is a constant placeholder glyph, and the three
name lookups are empty, so every name resolves to the engine's
`Unknown (0xHH)` fallback. -/
def envEx : Env where
  calculate_checksum := fun bs => (bs.foldl (· + ·) 0) % 256
  convert_segment_b_to_char := fun _ => '?'
  ADDRESS_LOOKUP := fun _ => none
  COMMAND_LOOKUP := fun _ => none
  CHANNEL_LOOKUP := fun _ => none

/-- C1: for format code 0x03 the source line
`signed_value = signed_value if not is_negative else -unsigned_value`
references `signed_value` before assignment whenever the sign flag (bit 6 of
the 7-bit segment code) is clear, so such a record raises and is skipped
(`None`), contrary to the claim that every 2-byte payload decodes
successfully to the unsigned magnitude over the divisor.  Payload
`[0x00, 0x05]` (sign flag clear) raises inside the branch and yields `None`;
payload `[0x80, 0x05]` (sign flag set) is the only shape that decodes, and
it does report the magnitude unsigned. -/
theorem C1_format3_sign_clear_is_skipped :
    decode_inner envEx 1 3 [0, 5] = .error () ∧
    decode_format_and_data envEx 1 3 [0, 5] = none ∧
    decode_format_and_data envEx 1 3 [128, 5] =
      some { channel_id := "0x01", format_byte := "0x03", data_bytes := "8005",
             divisor := 1, digits := 1, format_bits := 3,
             raw := .segSigned 64 (-5),
             interpreted := .scaled (((5 : Nat) : ℚ) / ((1 : Nat) : ℚ)) } :=
  ⟨rfl, rfl, rfl⟩

/-- C3: the body-segmentation loop does not always terminate.  For the frame
`[0, 0, 0, 0, 0, 1, 1]` (both checksums valid under the example checksum
function) the body is the single byte `[1]`: reading `body[1]` raises an
`IndexError` that the per-record handler catches without advancing the
cursor, so the loop repeats the same state forever — `runLoop` fails for
every amount of fuel and `decode_frame` diverges. -/
theorem C3_body_loop_diverges :
    (∀ fuel values, runLoop envEx [1] fuel (0, values) = none) ∧
    decode_frame envEx [0, 0, 0, 0, 0, 1, 1] = .diverges := by
  constructor
  · intro fuel values
    induction fuel with
    | zero => rfl
    | succ n ih =>
        calc runLoop envEx [1] (n + 1) (0, values)
            = runLoop envEx [1] n (0, values) := rfl
          _ = none := ih
  · rfl

/-- C9: `decode_format_and_data` is total towards its caller: it always
returns either a result or `None`, and a Python exception raised inside a
dispatch branch (here the `UnboundLocalError` of the 0x03 branch on payload
`[2, 9]`, whose sign flag is clear) is caught by the enclosing handler and
converted to the `None` (skip) outcome. -/
theorem C9_total_and_exceptions_become_none :
    (∀ (env : Env) (c f : Nat) (d : List Nat),
        (∃ r, decode_format_and_data env c f d = some r) ∨
        decode_format_and_data env c f d = none) ∧
    decode_inner envEx 2 3 [2, 9] = .error () ∧
    decode_format_and_data envEx 2 3 [2, 9] = none := by
  refine ⟨?_, rfl, rfl⟩
  intro env c f d
  cases h : decode_format_and_data env c f d with
  | none => exact Or.inr rfl
  | some r => exact Or.inl ⟨r, rfl⟩

/-- C7 (counterexample): the claim computes the high seven bits of byte
index 2 as `payload[2] & 0x7F` (discarding the top bit).  On payload
`[0, 0, 1, 0]` that formula gives `(1 & 0x7F) << 8 | 0 = 256`, but the code
computes `(payload[2] >> 1) & 0x7F` (discarding the LOW bit), giving raw
value 0. -/
theorem C7_low_bit_discarded_counterexample :
    (decode_format_and_data envEx 0 7 [0, 0, 1, 0]).map (fun r => r.raw) ≠
      some (.nat (((1 &&& 127) <<< 8) ||| 0)) := by decide

/-- C7 (amended): for format code 0x07 and every 4-byte payload, the raw
value is `((payload[2] >> 1) & 0x7F) << 8 | payload[3]` — the top seven bits
of byte index 2 (its LOW bit is discarded) as the high bits and all of byte
index 3 as the low bits — and the interpreted value is that raw value
divided by the divisor. -/
theorem C7_format7_raw_and_interpreted :
    ∀ (env : Env) (c f b0 b1 b2 b3 : Nat), f &&& 15 = 7 →
      decode_format_and_data env c f [b0, b1, b2, b3] =
        some { channel_id := "0x" ++ byteHexU c,
               format_byte := "0x" ++ byteHexU f,
               data_bytes := bytesHexL [b0, b1, b2, b3],
               divisor := (divisor_map ((f >>> 6) &&& 3)).getD 1,
               digits := (digits_map ((f >>> 4) &&& 3)).getD 1,
               format_bits := 7,
               raw := .nat ((((b2 >>> 1) &&& 127) <<< 8) ||| b3),
               interpreted := .scaled
                 ((((((b2 >>> 1) &&& 127) <<< 8) ||| b3 : Nat) : ℚ) /
                   (((divisor_map ((f >>> 6) &&& 3)).getD 1 : Nat) : ℚ)) } := by
  intro env c f b0 b1 b2 b3 h
  simp only [decode_format_and_data, decode_inner, h]
  rfl

/-- C7 (witness): the amended statement at format byte 0x07 and payload
`[0, 0, 1, 0]`, where the raw value is 0. -/
theorem C7_format7_witness :
    (7 &&& 15 = 7) ∧
    (decode_format_and_data envEx 0 7 [0, 0, 1, 0]).map (fun r => r.raw) =
      some (.nat 0) := by
  refine ⟨by decide, ?_⟩
  have h := C7_format7_raw_and_interpreted envEx 0 7 0 0 1 0 (by decide)
  rw [h]
  rfl

/-- C8: for format code 0x0A and every 4-byte payload, the result holds the
two independently computed two's-complement big-endian 16-bit integers of
bytes 0-1 and bytes 2-3, each divided by the same divisor, and the raw field
preserves both pre-scaling integers. -/
theorem C8_format0A_two_signed_pairs :
    ∀ (env : Env) (c f b0 b1 b2 b3 : Nat), f &&& 15 = 10 →
      decode_format_and_data env c f [b0, b1, b2, b3] =
        some { channel_id := "0x" ++ byteHexU c,
               format_byte := "0x" ++ byteHexU f,
               data_bytes := bytesHexL [b0, b1, b2, b3],
               divisor := (divisor_map ((f >>> 6) &&& 3)).getD 1,
               digits := (digits_map ((f >>> 4) &&& 3)).getD 1,
               format_bits := 10,
               raw := .pair (toSigned16 b0 b1) (toSigned16 b2 b3),
               interpreted := .pairScaled
                 ((toSigned16 b0 b1 : ℚ) /
                   (((divisor_map ((f >>> 6) &&& 3)).getD 1 : Nat) : ℚ))
                 ((toSigned16 b2 b3 : ℚ) /
                   (((divisor_map ((f >>> 6) &&& 3)).getD 1 : Nat) : ℚ)) } := by
  intro env c f b0 b1 b2 b3 h
  simp only [decode_format_and_data, decode_inner, h]
  rfl

/-- C8 (witness): format byte 0x8A (divisor bits 10, so divisor 100) on
payload `[0xFF, 0xFF, 0x00, 0x02]`: first raw value -1, second raw value 2,
both scaled by 100. -/
theorem C8_format0A_witness :
    (138 &&& 15 = 10) ∧
    (decode_format_and_data envEx 0 138 [255, 255, 0, 2]).map
        (fun r => (r.divisor, r.raw)) = some (100, .pair (-1) 2) := by
  refine ⟨by decide, ?_⟩
  have h := C8_format0A_two_signed_pairs envEx 0 138 255 255 0 2 (by decide)
  rw [h]
  rfl

/-- C6: for every frame of at least 5 bytes, a mismatch between the checksum
of the first four header bytes and `frame[4]` yields the header-checksum
error (no values, no body processing); with a matching header checksum, a
mismatch between the checksum of the body and the final byte yields the
body-checksum error; and when both match, the result is never an error —
decoding proceeds to body interpretation. -/
theorem C6_checksum_validation :
    ∀ (env : Env) (frame : List Nat), 5 ≤ frame.length →
      (env.calculate_checksum (frame.take 4) ≠ frame.getD 4 0 →
        decode_frame env frame = .error "Header checksum mismatch") ∧
      (env.calculate_checksum (frame.take 4) = frame.getD 4 0 →
        env.calculate_checksum ((frame.drop 5).dropLast) ≠
          frame.getD (frame.length - 1) 0 →
        decode_frame env frame = .error "Body checksum mismatch") ∧
      (env.calculate_checksum (frame.take 4) = frame.getD 4 0 →
        env.calculate_checksum ((frame.drop 5).dropLast) =
          frame.getD (frame.length - 1) 0 →
        isError (decode_frame env frame) = false) := by
  intro env frame h5
  simp only [decode_frame]
  rw [if_neg (by omega : ¬ frame.length < 5)]
  refine ⟨fun hh => ?_, fun hh hb => ?_, fun hh hb => ?_⟩
  · rw [if_pos hh]
  · rw [if_neg (not_not_intro hh), if_pos hb]
  · rw [if_neg (not_not_intro hh), if_neg (not_not_intro hb)]
    cases runLoop env ((frame.drop 5).dropLast)
        ((frame.drop 5).dropLast.length + 1)
        (0, ([] : List (String × Option DecodedResult))) <;> rfl

/-- C6 (witness): a 6-byte frame whose header checksum byte is wrong is
rejected with the header-checksum error. -/
theorem C6_checksum_witness :
    5 ≤ ([0, 0, 0, 0, 9, 1] : List Nat).length ∧
    decode_frame envEx [0, 0, 0, 0, 9, 1] = .error "Header checksum mismatch" :=
  ⟨by decide, (C6_checksum_validation envEx [0, 0, 0, 0, 9, 1] (by decide)).1 (by decide)⟩

/-- C4 (counterexample): a frame whose header checksum byte (0 instead of
23) does not match the computed checksum is nevertheless fully decoded by
`decode_ascii_frame`, producing channel values and no checksum-mismatch
error — the ASCII path does not re-execute the binary path's validation. -/
theorem C4_ascii_skips_validation_counterexample :
    envEx.calculate_checksum ([1, 2, 4, 16, 0, 5, 33, 49, 0].take 4) ≠
      [1, 2, 4, 16, 0, 5, 33, 49, 0].getD 4 0 ∧
    decode_ascii_frame envEx [1, 2, 4, 16, 0, 5, 33, 49, 0] =
      .ok "Unknown (0x01)" "Unknown (0x02)" "Unknown (0x10)" "Unknown (0x05)"
        "0x05" "0x21" "31" "1" "1" := by decide

/-- C4 (amended): `decode_ascii_frame` performs no checksum validation at
all: its result does not depend on the checksum utility in any way, and it
never returns a checksum-mismatch error, for any frame. -/
theorem C4_ascii_ignores_checksums :
    (∀ (cs₁ cs₂ : List Nat → Nat) (sc : Nat → Char)
        (al cl chl : Nat → Option String) (frame : List Nat),
        decode_ascii_frame ⟨cs₁, sc, al, cl, chl⟩ frame =
          decode_ascii_frame ⟨cs₂, sc, al, cl, chl⟩ frame) ∧
    (∀ (env : Env) (frame : List Nat),
        decode_ascii_frame env frame ≠ .error "Header checksum mismatch" ∧
        decode_ascii_frame env frame ≠ .error "Body checksum mismatch") := by
  constructor
  · intro cs₁ cs₂ sc al cl chl frame
    rfl
  · intro env frame
    simp only [decode_ascii_frame]
    split
    · exact ⟨by decide, by decide⟩
    · split
      · exact ⟨by decide, by decide⟩
      · exact ⟨fun h => AsciiResult.noConfusion h, fun h => AsciiResult.noConfusion h⟩

/-- C4 (witness): the amended statement evaluated on a concrete frame with a
wrong header checksum byte. -/
theorem C4_ascii_witness :
    decode_ascii_frame envEx [1, 2, 4, 16, 200, 5, 33, 49, 9] ≠
      .error "Header checksum mismatch" :=
  (C4_ascii_ignores_checksums.2 envEx [1, 2, 4, 16, 200, 5, 33, 49, 9]).1

/-- Storing under a fresh key appends the pair. -/
theorem dictStore_nil (k : String) (v : Option DecodedResult) :
    dictStore [] k v = [(k, v)] := rfl

/-- Storing a second key distinct from the only existing one appends. -/
theorem dictStore_single_ne {k1 k : String} (v1 v : Option DecodedResult)
    (h : k1 ≠ k) : dictStore [(k1, v1)] k v = [(k1, v1), (k, v)] := by
  have hany : ¬((List.any [(k1, v1)] fun p => decide (p.1 = k)) = true) := by
    simp [h]
  unfold dictStore
  rw [if_neg hany]
  rfl

/-- Storing under the single existing key overwrites its value in place. -/
theorem dictStore_single_same (k : String) (v1 v : Option DecodedResult) :
    dictStore [(k, v1)] k v = [(k, v)] := by
  have hany : (List.any [(k, v1)] fun p => decide (p.1 = k)) = true := by simp
  unfold dictStore
  rw [if_pos hany]
  simp

/-- C2 (counterexample): in the frame whose body holds a record for channel
0x10 with unsupported format nibble 0x09 (payload length defaults to 0, so
the payload is empty and `decode_format_and_data` returns `None`) followed
by a well-formed record for channel 0x20, the failed record's channel is NOT
absent from the values mapping: `decode_frame` stores the returned `None`
unconditionally, so the mapping contains an entry for `Unknown (0x10)`
holding `None`. -/
theorem C2_failed_record_present_counterexample :
    (valuesOf (decode_frame envEx [1, 2, 6, 16, 25, 16, 9, 32, 1, 0, 10, 68])).map
        (fun vs => vs.lookup "Unknown (0x10)") = some (some none) := by
  rfl

/-- C2 (amended): a record that fails to decode (here: unsupported format
nibble 0x09, hence empty payload) does not abort the frame: `decode_frame`
still succeeds, but the failed record's channel is PRESENT in the values
mapping with value `None`, while every other well-formed record's channel
maps to its decoded value.  Stated for every environment whose channel
names for ids 0x10 and 0x20 differ. -/
theorem C2_failed_record_mapped_to_none :
    ∀ env : Env,
      lookup_name env.CHANNEL_LOOKUP 16 ≠ lookup_name env.CHANNEL_LOOKUP 32 →
      decode_frame env [1, 2, 6, 16, env.calculate_checksum [1, 2, 6, 16],
          16, 9, 32, 1, 0, 10, env.calculate_checksum [16, 9, 32, 1, 0, 10]] =
        .ok (lookup_name env.ADDRESS_LOOKUP 1) (lookup_name env.ADDRESS_LOOKUP 2)
          (lookup_name env.COMMAND_LOOKUP 16)
          [(lookup_name env.CHANNEL_LOOKUP 16, none),
           (lookup_name env.CHANNEL_LOOKUP 32,
             some { channel_id := "0x20", format_byte := "0x01",
                    data_bytes := "000a", divisor := 1, digits := 1,
                    format_bits := 1, raw := .int 10,
                    interpreted := .scaled (((10 : Int) : ℚ) / ((1 : Nat) : ℚ)) })] := by
  intro env hne
  have h1 : decode_frame env [1, 2, 6, 16, env.calculate_checksum [1, 2, 6, 16],
      16, 9, 32, 1, 0, 10, env.calculate_checksum [16, 9, 32, 1, 0, 10]] =
      (if env.calculate_checksum [1, 2, 6, 16] ≠ env.calculate_checksum [1, 2, 6, 16]
       then FrameResult.error "Header checksum mismatch"
       else if env.calculate_checksum [16, 9, 32, 1, 0, 10] ≠
           env.calculate_checksum [16, 9, 32, 1, 0, 10]
       then FrameResult.error "Body checksum mismatch"
       else match runLoop env [16, 9, 32, 1, 0, 10] 7 (0, []) with
         | some values => FrameResult.ok (lookup_name env.ADDRESS_LOOKUP 1)
             (lookup_name env.ADDRESS_LOOKUP 2)
             (lookup_name env.COMMAND_LOOKUP 16) values
         | none => FrameResult.diverges) := rfl
  rw [h1, if_neg (not_not_intro rfl), if_neg (not_not_intro rfl)]
  have h2 : runLoop env [16, 9, 32, 1, 0, 10] 7 (0, []) =
      some (dictStore [(lookup_name env.CHANNEL_LOOKUP 16, none)]
        (lookup_name env.CHANNEL_LOOKUP 32)
        (decode_format_and_data env 32 1 [0, 10])) := rfl
  rw [h2, dictStore_single_ne _ _ hne]
  rfl

/-- C2 (witness): the amended statement under the concrete example
environment, where the two channel names are the distinct fallbacks
`Unknown (0x10)` and `Unknown (0x20)`. -/
theorem C2_failed_record_witness :
    (lookup_name envEx.CHANNEL_LOOKUP 16 ≠ lookup_name envEx.CHANNEL_LOOKUP 32) ∧
    valuesOf (decode_frame envEx [1, 2, 6, 16, envEx.calculate_checksum [1, 2, 6, 16],
        16, 9, 32, 1, 0, 10, envEx.calculate_checksum [16, 9, 32, 1, 0, 10]]) =
      some [(lookup_name envEx.CHANNEL_LOOKUP 16, none),
            (lookup_name envEx.CHANNEL_LOOKUP 32,
              some { channel_id := "0x20", format_byte := "0x01",
                     data_bytes := "000a", divisor := 1, digits := 1,
                     format_bits := 1, raw := .int 10,
                     interpreted := .scaled (((10 : Int) : ℚ) / ((1 : Nat) : ℚ)) })] := by
  refine ⟨by decide, ?_⟩
  rw [C2_failed_record_mapped_to_none envEx (by decide)]
  rfl

/-- C10: when the same channel id occurs in two well-formed records of one
body (the first with format byte 0x01, the second with format byte 0x41 —
both 16-bit signed records), the values mapping contains exactly one entry
for that channel's name, and it holds the decoded value of the record that
occurs later in the body; the earlier decoded value is overwritten. -/
theorem C10_duplicate_channel_last_wins :
    ∀ (env : Env) (ch a0 a1 b0 b1 : Nat),
      decode_frame env [1, 2, 8, 16, env.calculate_checksum [1, 2, 8, 16],
          ch, 1, a0, a1, ch, 65, b0, b1,
          env.calculate_checksum [ch, 1, a0, a1, ch, 65, b0, b1]] =
        .ok (lookup_name env.ADDRESS_LOOKUP 1) (lookup_name env.ADDRESS_LOOKUP 2)
          (lookup_name env.COMMAND_LOOKUP 16)
          [(lookup_name env.CHANNEL_LOOKUP ch,
            decode_format_and_data env ch 65 [b0, b1])] := by
  intro env ch a0 a1 b0 b1
  have h1 : decode_frame env [1, 2, 8, 16, env.calculate_checksum [1, 2, 8, 16],
      ch, 1, a0, a1, ch, 65, b0, b1,
      env.calculate_checksum [ch, 1, a0, a1, ch, 65, b0, b1]] =
      (if env.calculate_checksum [1, 2, 8, 16] ≠ env.calculate_checksum [1, 2, 8, 16]
       then FrameResult.error "Header checksum mismatch"
       else if env.calculate_checksum [ch, 1, a0, a1, ch, 65, b0, b1] ≠
           env.calculate_checksum [ch, 1, a0, a1, ch, 65, b0, b1]
       then FrameResult.error "Body checksum mismatch"
       else match runLoop env [ch, 1, a0, a1, ch, 65, b0, b1] 9 (0, []) with
         | some values => FrameResult.ok (lookup_name env.ADDRESS_LOOKUP 1)
             (lookup_name env.ADDRESS_LOOKUP 2)
             (lookup_name env.COMMAND_LOOKUP 16) values
         | none => FrameResult.diverges) := rfl
  rw [h1, if_neg (not_not_intro rfl), if_neg (not_not_intro rfl)]
  have h2 : runLoop env [ch, 1, a0, a1, ch, 65, b0, b1] 9 (0, []) =
      some (dictStore
        [(lookup_name env.CHANNEL_LOOKUP ch, decode_format_and_data env ch 1 [a0, a1])]
        (lookup_name env.CHANNEL_LOOKUP ch)
        (decode_format_and_data env ch 65 [b0, b1])) := rfl
  rw [h2, dictStore_single_same]

/-- The scalar pre-scaling numeric value of the format branches whose
`interpreted` is a division by the divisor, exactly as each source branch
computes it (format codes 0x01, 0x02, 0x03, 0x04, 0x07, 0x08); `none` for
the remaining codes (0x05 duration, 0x06 text, 0x0A pair, unsupported). -/
def raw_numeric (format_bits : Nat) (d : List Nat) : Option ℚ :=
  if format_bits = 1 then some ((toSigned16 (d.getD 0 0) (d.getD 1 0) : Int) : ℚ)
  else if format_bits = 2 then
    some ((((d.getD 0 0) &&& 3) <<< 8 ||| d.getD 1 0 : Nat) : ℚ)
  else if format_bits = 3 then
    some ((((d.getD 0 0) &&& 1) <<< 8 ||| d.getD 1 0 : Nat) : ℚ)
  else if format_bits = 4 then
    some (((d.getD 1 0) * 65536 + (d.getD 2 0) * 256 + d.getD 3 0 : Nat) : ℚ)
  else if format_bits = 7 then
    some ((((d.getD 2 0) >>> 1) &&& 127) <<< 8 ||| d.getD 3 0 : Nat)
  else if format_bits = 8 then
    some ((((d.getD 0 0) &&& 1) <<< 8 ||| d.getD 1 0 : Nat) : ℚ)
  else none

/-- Bits 7-6 of a byte are a function of the byte masked with 0xCF. -/
theorem divisor_bits_of_masked (x : Nat) : (x >>> 6) &&& 3 = (x &&& 207) >>> 6 := by
  apply Nat.eq_of_testBit_eq
  intro i
  simp only [Nat.testBit_and, Nat.testBit_shiftRight]
  suffices hsuff : (3 : Nat).testBit i = (207 : Nat).testBit (6 + i) by rw [hsuff]
  match i with
  | 0 => decide
  | 1 => decide
  | (j + 2) =>
    have h3 : (3 : Nat).testBit (j + 2) = false := by
      apply Nat.testBit_eq_false_of_lt
      calc (3 : Nat) < 2 ^ 2 := by norm_num
        _ ≤ 2 ^ (j + 2) := Nat.pow_le_pow_right (by norm_num) (by omega)
    have h207 : (207 : Nat).testBit (6 + (j + 2)) = false := by
      apply Nat.testBit_eq_false_of_lt
      calc (207 : Nat) < 2 ^ 8 := by norm_num
        _ ≤ 2 ^ (6 + (j + 2)) := Nat.pow_le_pow_right (by norm_num) (by omega)
    rw [h3, h207]

/-- Bits 3-0 of a byte are a function of the byte masked with 0xCF. -/
theorem format_bits_of_masked (x : Nat) : x &&& 15 = (x &&& 207) &&& 15 := by
  rw [Nat.and_assoc, show (207 : Nat) &&& 15 = 15 from by decide]

/-- Two format bytes equal outside the digits bits share divisor bits and
format bits. -/
theorem masked_eq_key (x y : Nat) (h : x &&& 207 = y &&& 207) :
    (x >>> 6) &&& 3 = (y >>> 6) &&& 3 ∧ x &&& 15 = y &&& 15 := by
  constructor
  · rw [divisor_bits_of_masked, divisor_bits_of_masked, h]
  · rw [format_bits_of_masked x, format_bits_of_masked y, h]

/-- A list of length four is literally a four-element list. -/
theorem exists_len4 {α : Type} {l : List α} (h : l.length = 4) :
    ∃ a b c e, l = [a, b, c, e] := by
  rcases l with _ | ⟨a, _ | ⟨b, _ | ⟨c, _ | ⟨e, _ | ⟨x, tl⟩⟩⟩⟩⟩
  · simp at h
  · simp at h
  · simp at h
  · simp at h
  · exact ⟨a, b, c, e, rfl⟩
  · simp only [List.length_cons, List.length_nil] at h
    omega

/-- C5 (counterexample): two supported format codes with exact-length
payloads where `interpreted` is not the raw numeric value over the divisor:
format 0x03 on payload `[0, 7]` (sign flag clear) produces no value at all
(the record is skipped via the unassigned-variable exception), and format
0x05 on payload `[0, 1, 2, 3]` produces a duration, not a division. -/
theorem C5_not_all_formats_divide_counterexample :
    decode_format_and_data envEx 0 3 [0, 7] = none ∧
    (decode_format_and_data envEx 0 5 [0, 1, 2, 3]).map (fun r => r.interpreted) =
      some (.duration 1 2 3) :=
  ⟨rfl, rfl⟩

/-- C5 (amended): (a) for the scalar numeric format codes 0x01, 0x02, 0x04,
0x07, 0x08 — and 0x03 when the sign flag (bit 6 of the segment code) is set
— a payload of the exact required length decodes to a result whose divisor
is derived solely from bits 7-6 of the format byte via
`{00:1, 01:10, 10:100, 11:1000}` and whose interpreted value is the raw
numeric value divided by that divisor; (b) for every format byte and every
payload, the divisor, raw and interpreted components of the result are
independent of the digits bits 5-4 of the format byte. -/
theorem C5_divisor_and_digits_independence :
    (∀ (env : Env) (c f : Nat) (d : List Nat) (q : ℚ),
      raw_numeric (f &&& 15) d = some q →
      d.length = (FORMAT_SIZE_MAP (f &&& 15)).getD 0 →
      (f &&& 15 = 3 → (((d.getD 0 0) >>> 1) &&& 127) &&& 64 ≠ 0) →
      ∃ r, decode_format_and_data env c f d = some r ∧
        r.divisor = (divisor_map ((f >>> 6) &&& 3)).getD 1 ∧
        r.interpreted = .scaled (q / (r.divisor : ℚ))) ∧
    (∀ (env : Env) (c : Nat) (d : List Nat) (f f' : Nat),
      f &&& 207 = f' &&& 207 →
      (decode_format_and_data env c f d).map (fun r => (r.divisor, r.raw, r.interpreted)) =
        (decode_format_and_data env c f' d).map (fun r => (r.divisor, r.raw, r.interpreted))) := by
  constructor
  · intro env c f d q hq hlen hsign
    unfold raw_numeric at hq
    split_ifs at hq with h1 h2 h3 h4 h7 h8
    · rw [h1] at hlen
      norm_num [FORMAT_SIZE_MAP] at hlen
      obtain ⟨x, y, rfl⟩ := List.length_eq_two.mp hlen
      obtain rfl := Option.some.inj hq
      have heq : decode_format_and_data env c f [x, y] = some
          { channel_id := "0x" ++ byteHexU c, format_byte := "0x" ++ byteHexU f,
            data_bytes := bytesHexL [x, y],
            divisor := (divisor_map ((f >>> 6) &&& 3)).getD 1,
            digits := (digits_map ((f >>> 4) &&& 3)).getD 1,
            format_bits := 1,
            raw := .int (toSigned16 x y),
            interpreted := .scaled ((toSigned16 x y : ℚ) /
              (((divisor_map ((f >>> 6) &&& 3)).getD 1 : Nat) : ℚ)) } := by
        simp only [decode_format_and_data, decode_inner, h1]
        rfl
      exact ⟨_, heq, rfl, rfl⟩
    · rw [h2] at hlen
      norm_num [FORMAT_SIZE_MAP] at hlen
      obtain ⟨x, y, rfl⟩ := List.length_eq_two.mp hlen
      obtain rfl := Option.some.inj hq
      have heq : decode_format_and_data env c f [x, y] = some
          { channel_id := "0x" ++ byteHexU c, format_byte := "0x" ++ byteHexU f,
            data_bytes := bytesHexL [x, y],
            divisor := (divisor_map ((f >>> 6) &&& 3)).getD 1,
            digits := (digits_map ((f >>> 4) &&& 3)).getD 1,
            format_bits := 2,
            raw := .segUnsigned ((x >>> 2) &&& 63) ((x &&& 3) <<< 8 ||| y),
            interpreted := .scaled ((((x &&& 3) <<< 8 ||| y : Nat) : ℚ) /
              (((divisor_map ((f >>> 6) &&& 3)).getD 1 : Nat) : ℚ)) } := by
        simp only [decode_format_and_data, decode_inner, h2]
        rfl
      exact ⟨_, heq, rfl, rfl⟩
    · rw [h3] at hlen
      norm_num [FORMAT_SIZE_MAP] at hlen
      obtain ⟨x, y, rfl⟩ := List.length_eq_two.mp hlen
      obtain rfl := Option.some.inj hq
      have heq : decode_format_and_data env c f [x, y] = some
          { channel_id := "0x" ++ byteHexU c, format_byte := "0x" ++ byteHexU f,
            data_bytes := bytesHexL [x, y],
            divisor := (divisor_map ((f >>> 6) &&& 3)).getD 1,
            digits := (digits_map ((f >>> 4) &&& 3)).getD 1,
            format_bits := 3,
            raw := .segSigned ((x >>> 1) &&& 127)
              (-(((x &&& 1) <<< 8 ||| y : Nat) : Int)),
            interpreted := .scaled ((((x &&& 1) <<< 8 ||| y : Nat) : ℚ) /
              (((divisor_map ((f >>> 6) &&& 3)).getD 1 : Nat) : ℚ)) } := by
        simp only [decode_format_and_data, decode_inner, h3]
        rw [show decode_branches env ((divisor_map ((f >>> 6) &&& 3)).getD 1) 3 [x, y] =
            (if ((x >>> 1) &&& 127) &&& 64 ≠ 0 then
              Except.ok (some (RawValue.segSigned ((x >>> 1) &&& 127)
                (-(((x &&& 1) <<< 8 ||| y : Nat) : Int)),
                Interpreted.scaled ((((x &&& 1) <<< 8 ||| y : Nat) : ℚ) /
                  (((divisor_map ((f >>> 6) &&& 3)).getD 1 : Nat) : ℚ))))
             else Except.error ()) from rfl]
        have hs : ((x >>> 1) &&& 127) &&& 64 ≠ 0 := hsign h3
        rw [if_pos hs]
        rfl
      exact ⟨_, heq, rfl, rfl⟩
    · rw [h4] at hlen
      norm_num [FORMAT_SIZE_MAP] at hlen
      obtain ⟨x, y, z, w, rfl⟩ := exists_len4 hlen
      obtain rfl := Option.some.inj hq
      have heq : decode_format_and_data env c f [x, y, z, w] = some
          { channel_id := "0x" ++ byteHexU c, format_byte := "0x" ++ byteHexU f,
            data_bytes := bytesHexL [x, y, z, w],
            divisor := (divisor_map ((f >>> 6) &&& 3)).getD 1,
            digits := (digits_map ((f >>> 4) &&& 3)).getD 1,
            format_bits := 4,
            raw := .segUnsigned x (y * 65536 + z * 256 + w),
            interpreted := .scaled (((y * 65536 + z * 256 + w : Nat) : ℚ) /
              (((divisor_map ((f >>> 6) &&& 3)).getD 1 : Nat) : ℚ)) } := by
        simp only [decode_format_and_data, decode_inner, h4]
        rfl
      exact ⟨_, heq, rfl, rfl⟩
    · rw [h7] at hlen
      norm_num [FORMAT_SIZE_MAP] at hlen
      obtain ⟨x, y, z, w, rfl⟩ := exists_len4 hlen
      obtain rfl := Option.some.inj hq
      have heq : decode_format_and_data env c f [x, y, z, w] = some
          { channel_id := "0x" ++ byteHexU c, format_byte := "0x" ++ byteHexU f,
            data_bytes := bytesHexL [x, y, z, w],
            divisor := (divisor_map ((f >>> 6) &&& 3)).getD 1,
            digits := (digits_map ((f >>> 4) &&& 3)).getD 1,
            format_bits := 7,
            raw := .nat (((z >>> 1) &&& 127) <<< 8 ||| w),
            interpreted := .scaled (((((z >>> 1) &&& 127) <<< 8 ||| w : Nat) : ℚ) /
              (((divisor_map ((f >>> 6) &&& 3)).getD 1 : Nat) : ℚ)) } := by
        simp only [decode_format_and_data, decode_inner, h7]
        rfl
      exact ⟨_, heq, rfl, rfl⟩
    · rw [h8] at hlen
      norm_num [FORMAT_SIZE_MAP] at hlen
      obtain ⟨x, y, rfl⟩ := List.length_eq_two.mp hlen
      obtain rfl := Option.some.inj hq
      have heq : decode_format_and_data env c f [x, y] = some
          { channel_id := "0x" ++ byteHexU c, format_byte := "0x" ++ byteHexU f,
            data_bytes := bytesHexL [x, y],
            divisor := (divisor_map ((f >>> 6) &&& 3)).getD 1,
            digits := (digits_map ((f >>> 4) &&& 3)).getD 1,
            format_bits := 8,
            raw := .segUnsigned ((x >>> 1) &&& 127) ((x &&& 1) <<< 8 ||| y),
            interpreted := .scaled ((((x &&& 1) <<< 8 ||| y : Nat) : ℚ) /
              (((divisor_map ((f >>> 6) &&& 3)).getD 1 : Nat) : ℚ)) } := by
        simp only [decode_format_and_data, decode_inner, h8]
        rfl
      exact ⟨_, heq, rfl, rfl⟩
  · intro env c d f f' h
    obtain ⟨hdiv, hfb⟩ := masked_eq_key f f' h
    simp only [decode_format_and_data, decode_inner, hdiv, hfb]
    by_cases hd : d.length = 0
    · simp only [if_pos hd]
    · simp only [if_neg hd]
      cases hbr : decode_branches env ((divisor_map ((f' >>> 6) &&& 3)).getD 1)
          (f' &&& 15) d with
      | error e => rfl
      | ok v =>
          cases v with
          | none => rfl
          | some p =>
              cases p with
              | mk raw interp => rfl

/-- C5 (witness): the amended statement at format byte 0x41 (divisor 10) and
a 16-bit signed payload `[0, 10]`, and digits-independence between format
bytes 0x41 and 0x71 (which differ only in bits 5-4). -/
theorem C5_divisor_witness :
    (raw_numeric (65 &&& 15) [0, 10] = some ((toSigned16 0 10 : Int) : ℚ) ∧
      ([0, 10] : List Nat).length = (FORMAT_SIZE_MAP (65 &&& 15)).getD 0 ∧
      (65 &&& 207 = 113 &&& 207)) ∧
    (∃ r, decode_format_and_data envEx 5 65 [0, 10] = some r ∧
      r.divisor = (divisor_map ((65 >>> 6) &&& 3)).getD 1 ∧
      r.interpreted = .scaled (((toSigned16 0 10 : Int) : ℚ) / (r.divisor : ℚ))) ∧
    (decode_format_and_data envEx 5 65 [0, 10]).map
        (fun r => (r.divisor, r.raw, r.interpreted)) =
      (decode_format_and_data envEx 5 113 [0, 10]).map
        (fun r => (r.divisor, r.raw, r.interpreted)) := by
  refine ⟨⟨rfl, by decide, by decide⟩, ?_, ?_⟩
  · exact C5_divisor_and_digits_independence.1 envEx 5 65 [0, 10]
      ((toSigned16 0 10 : Int) : ℚ) rfl (by decide) (by intro hcontra; exact absurd hcontra (by decide))
  · exact C5_divisor_and_digits_independence.2 envEx 5 [0, 10] 65 113 (by decide)

end Fastnet
